import Mathlib

/-!
Verification development for the widget-synthesis core of a PDF authoring
library (`borb`), file `src/borb/pdf/canvas/layout/forms/text_field.py`.

The Python code mutates an in-memory object graph of PDF objects
(dictionaries, arrays, streams, names, strings, numbers).  Object identity
(Python `is`) matters for the properties under study, so the embedding uses
an explicit heap: nodes live in a list, a node id is its index, and a
`PDFValue.ref` is a pointer into the heap.  Two entries hold "the same node
instance" exactly when they hold `ref i` for the same `i`.

Python `Decimal` arithmetic is modelled with exact rationals `ℚ`; the
constant `Decimal(1.2)` is modelled by its intended decimal value `6/5`.
Byte strings are modelled as `String`; the zlib codec is an abstract
parameter (a pair of functions), since the spec only relies on it being a
lossless byte-reversible encoding.
-/

set_option linter.unusedVariables false

namespace Borb

/-- Values stored inside PDF container objects: names, strings, numbers,
booleans, raw byte payloads, and references to heap nodes. -/
inductive PDFValue where
  | name (s : String)
  | str (s : String)
  | num (q : ℚ)
  | bool (b : Bool)
  | bytes (s : String)
  | ref (i : Nat)
deriving DecidableEq

/-- A heap node is either a dictionary (association list, insertion order
preserved, as in Python dicts) or an array. A `Stream` in the source is a
dictionary whose payload lives under the keys `DecodedBytes` and `Bytes`. -/
inductive Node where
  | dict (entries : List (String × PDFValue))
  | arr (elems : List PDFValue)
deriving DecidableEq

/-- The object graph: a list of nodes, indexed by node id. -/
structure Heap where
  nodes : List Node
deriving DecidableEq

/-- Replace the value at a key, keeping its position, or append a fresh
entry (Python dict assignment semantics). -/
def dictSetEntries : List (String × PDFValue) → String → PDFValue → List (String × PDFValue)
  | [], k, v => [(k, v)]
  | (k', v') :: rest, k, v =>
      if k' == k then (k', v) :: rest else (k', v') :: dictSetEntries rest k v

/-- Look a key up in a dictionary node (`none` on arrays / missing keys). -/
def Node.dictLookup : Node → String → Option PDFValue
  | .dict es, k => (es.find? (fun e => e.1 == k)).map Prod.snd
  | .arr _, _ => none

/-- Fetch a node by id. -/
def Heap.get? (h : Heap) (i : Nat) : Option Node :=
  h.nodes[i]?

/-- Overwrite the node at an id (no-op when out of range). -/
def Heap.setNode (h : Heap) (i : Nat) (n : Node) : Heap :=
  ⟨h.nodes.set i n⟩

/-- Allocate a fresh node, returning its id and the grown heap. -/
def Heap.alloc (h : Heap) (n : Node) : Nat × Heap :=
  (h.nodes.length, ⟨h.nodes ++ [n]⟩)

/-- Read `node[key]`; errors mirror Python `KeyError` / dangling access. -/
def Heap.dictGet (h : Heap) (i : Nat) (k : String) : Except String PDFValue :=
  match h.get? i with
  | some n =>
      match n.dictLookup k with
      | some v => .ok v
      | none => .error "KeyError"
  | none => .error "dangling reference"

/-- Write `node[key] = v` on a dictionary node. -/
def Heap.dictSet (h : Heap) (i : Nat) (k : String) (v : PDFValue) : Except String Heap :=
  match h.get? i with
  | some (.dict es) => .ok (h.setNode i (.dict (dictSetEntries es k v)))
  | _ => .error "not a dictionary"

/-- Python `key in node` (false on arrays / dangling ids). -/
def Heap.hasKey (h : Heap) (i : Nat) (k : String) : Bool :=
  match h.get? i with
  | some n => (n.dictLookup k).isSome
  | none => false

/-- Python `node.append(v)` on an array node. -/
def Heap.arrAppend (h : Heap) (i : Nat) (v : PDFValue) : Except String Heap :=
  match h.get? i with
  | some (.arr l) => .ok (h.setNode i (.arr (l ++ [v])))
  | _ => .error "not an array"

/-- Python `node[j] = v` on an array node (index must be in range). -/
def Heap.arrSet (h : Heap) (i : Nat) (j : Nat) (v : PDFValue) : Except String Heap :=
  match h.get? i with
  | some (.arr l) =>
      if j < l.length then .ok (h.setNode i (.arr (l.set j v))) else .error "IndexError"
  | _ => .error "IndexError"

/-- Expect a reference value and return the node id it points to. -/
def asRef : PDFValue → Except String Nat
  | .ref i => .ok i
  | _ => .error "not a reference"

/-- Dereference a value when it is a reference. -/
def nodeOfRef (h : Heap) (v : PDFValue) : Option Node :=
  match v with
  | .ref i => h.get? i
  | _ => none

/-- Geometry rectangle, mirroring `borb.pdf.canvas.geometry.rectangle.Rectangle`. -/
structure Rectangle where
  x : ℚ
  y : ℚ
  width : ℚ
  height : ℚ
deriving DecidableEq

/-- An RGB color with components in `[0,1]`; the source's `Color.to_rgb`
conversion is out of scope, so fields carry the converted value directly. -/
structure RGBColor where
  red : ℚ
  green : ℚ
  blue : ℚ
deriving DecidableEq

/-- The mutable state of one `TextField` instance (the attributes set in
`TextField.__init__` that the widget-synthesis code reads or writes). -/
structure TextField where
  font_size : ℚ
  font_color : RGBColor
  value : String
  default_value : String
  field_name : Option String
  widget_dictionary : Option Nat
deriving DecidableEq

/-- An abstract lossless byte codec standing for zlib (`FlateDecode`).
The source only calls `compress`; `decompress` exists to state the
round-trip contract. -/
structure Codec where
  compress : String → String
  decompress : String → String

/-- The identity codec: a concrete lossless codec used for witnesses. -/
def idCodec : Codec :=
  ⟨fun s => s, fun s => s⟩

/-- The fixed marked-content payload `b"/Tx BMC EMC"` of line 99. -/
def decoded_payload : String := "/Tx BMC EMC"

/-- The `DA` rendering-instruction string of lines 135-144 (the `%f`
float formatting is abstracted; no studied property inspects this text). -/
def da_string (color : RGBColor) (font_resource_name : String) (font_size : ℚ) : String :=
  toString color.red ++ " " ++ toString color.green ++ " " ++ toString color.blue
    ++ " rg /" ++ font_resource_name ++ " " ++ toString font_size ++ " Tf"

/-- Python truthiness of `self._field_name or auto` on line 127:
`None` and the empty string both fall back to the generated name. -/
def resolved_field_name (n : Option String) (auto : String) : String :=
  match n with
  | none => auto
  | some s => if s = "" then auto else s

/-- Check whether a font-dictionary entry refers to a font node with the
given `BaseFont` descriptor. -/
def fontMatches (h : Heap) (v : PDFValue) (baseFont : String) : Bool :=
  match nodeOfRef h v with
  | some n => n.dictLookup "BaseFont" == some (.name baseFont)
  | none => false

/-- Modelled from the spec: `FormField._get_font_resource_name` (file
`form_field.py`, not under `src/`).  Spec §4.2: lazily create the page's
resource dictionary and its font sub-dictionary when absent; if a font with
an equivalent descriptor already exists, return its existing name;
otherwise allocate a fresh deterministic name, insert the font resource,
and return the new name. -/
def ensure_font (h : Heap) (pageId : Nat) (baseFont : String) :
    Except String (String × Heap) := do
  let h ←
    if h.hasKey pageId "Resources" then pure h
    else
      let ar := h.alloc (.dict [])
      ar.2.dictSet pageId "Resources" (.ref ar.1)
  let resRef ← h.dictGet pageId "Resources"
  let resId ← asRef resRef
  let h ←
    if h.hasKey resId "Font" then pure h
    else
      let af := h.alloc (.dict [])
      af.2.dictSet resId "Font" (.ref af.1)
  let fontsRef ← h.dictGet resId "Font"
  let fontsId ← asRef fontsRef
  match h.get? fontsId with
  | some (.dict es) =>
      match es.find? (fun e => fontMatches h e.2 baseFont) with
      | some e => pure (e.1, h)
      | none =>
          let fname := "F" ++ toString (es.length + 1)
          let an := h.alloc
            (.dict [("Type", .name "Font"), ("Subtype", .name "Type1"),
                    ("BaseFont", .name baseFont)])
          let h ← an.2.dictSet fontsId fname (.ref an.1)
          pure (fname, h)
  | _ => .error "font resources are not a dictionary"

/-- Number of entries in the catalog's `AcroForm` `Fields` list (0 when the
registry does not exist yet). -/
def acroFieldsCount (h : Heap) (catalog : Nat) : Nat :=
  match h.get? catalog with
  | some cat =>
      match cat.dictLookup "AcroForm" with
      | some af =>
          match nodeOfRef h af with
          | some afn =>
              match afn.dictLookup "Fields" with
              | some fl =>
                  match nodeOfRef h fl with
                  | some (.arr l) => l.length
                  | _ => 0
              | none => 0
          | _ => 0
      | none => 0
  | none => 0

/-- Modelled from the spec: `FormField._get_auto_generated_field_name`
(file `form_field.py`, not under `src/`).  Spec §4.5: an auto-generated
name, deterministic and collision-free for repeated calls; modelled as a
counter over the document's field registry. -/
def auto_field_name (h : Heap) (catalog : Nat) : String :=
  "field-" ++ toString (acroFieldsCount h catalog)

/-- Embedding of `TextField._init_widget_dictionary` (lines 70-158),
line by line.  `root` is the node returned by `page.get_root()`, `pageId`
the page node.  The two leading guards are lines 72-76; the appended `P`
entry on line 126 points at `catalog` exactly as the source does. -/
def init_widget_dictionary (c : Codec) (fld : TextField) (root pageId : Nat)
    (layout_box : Rectangle) (h : Heap) : Except String (TextField × Heap) := do
  if fld.widget_dictionary.isSome then
    return (fld, h)
  if ¬ h.hasKey root "XRef" then
    return (fld, h)
  -- init page and font resources (line 80)
  let fr ← ensure_font h pageId "Helvetica"
  let font_resource_name := fr.1
  let h := fr.2
  -- widget resource dictionary (lines 85-86)
  let a1 := h.alloc (.dict [])
  let widget_resources := a1.1
  let h := a1.2
  let resRef ← h.dictGet pageId "Resources"
  let resId ← asRef resRef
  let pageFonts ← h.dictGet resId "Font"
  let h ← h.dictSet widget_resources "Font" pageFonts
  -- widget normal appearance (lines 90-102)
  let a2 := h.alloc (.dict [])
  let widget_normal_appearance := a2.1
  let h := a2.2
  let h ← h.dictSet widget_normal_appearance "Type" (.name "XObject")
  let h ← h.dictSet widget_normal_appearance "Subtype" (.name "Form")
  let a3 := h.alloc (.arr [])
  let bboxId := a3.1
  let h := a3.2
  let h ← h.dictSet widget_normal_appearance "BBox" (.ref bboxId)
  let h ← h.arrAppend bboxId (.num 0)
  let h ← h.arrAppend bboxId (.num 0)
  let h ← h.arrAppend bboxId (.num layout_box.width)
  let h ← h.arrAppend bboxId (.num fld.font_size)
  let h ← h.dictSet widget_normal_appearance "Resources" (.ref widget_resources)
  let h ← h.dictSet widget_normal_appearance "DecodedBytes" (.bytes decoded_payload)
  let bytesV := c.compress decoded_payload
  let h ← h.dictSet widget_normal_appearance "Bytes" (.bytes bytesV)
  let h ← h.dictSet widget_normal_appearance "Filter" (.name "FlateDecode")
  let h ← h.dictSet widget_normal_appearance "Length" (.num (bytesV.length : ℚ))
  -- widget appearance dictionary (lines 107-108)
  let a4 := h.alloc (.dict [])
  let widget_appearance_dictionary := a4.1
  let h := a4.2
  let h ← h.dictSet widget_appearance_dictionary "N" (.ref widget_normal_appearance)
  -- get Catalog (line 112): page.get_root()["XRef"]["Trailer"]["Root"]
  let xrefRef ← h.dictGet root "XRef"
  let xrefId ← asRef xrefRef
  let trailerRef ← h.dictGet xrefId "Trailer"
  let trailerId ← asRef trailerRef
  let catalogRef ← h.dictGet trailerId "Root"
  let catalog ← asRef catalogRef
  -- widget dictionary (lines 116-145)
  let a5 := h.alloc (.dict [])
  let widget_dict := a5.1
  let h := a5.2
  let h ← h.dictSet widget_dict "Type" (.name "Annot")
  let h ← h.dictSet widget_dict "Subtype" (.name "Widget")
  let h ← h.dictSet widget_dict "F" (.num 4)
  let a6 := h.alloc (.arr [])
  let rectId := a6.1
  let h := a6.2
  let h ← h.dictSet widget_dict "Rect" (.ref rectId)
  let h ← h.arrAppend rectId (.num layout_box.x)
  let h ← h.arrAppend rectId (.num (layout_box.y + layout_box.height - fld.font_size))
  let h ← h.arrAppend rectId (.num (layout_box.x + layout_box.width))
  let h ← h.arrAppend rectId (.num (layout_box.y + layout_box.height))
  let h ← h.dictSet widget_dict "FT" (.name "Tx")
  -- line 126: P is set to the node named `catalog` in the source
  let h ← h.dictSet widget_dict "P" (.ref catalog)
  let h ← h.dictSet widget_dict "T"
    (.str (resolved_field_name fld.field_name (auto_field_name h catalog)))
  let h ← h.dictSet widget_dict "V" (.str fld.value)
  let h ← h.dictSet widget_dict "DV" (.str fld.default_value)
  let h ← h.dictSet widget_dict "DR" (.ref widget_resources)
  let h ← h.dictSet widget_dict "DA"
    (.str (da_string fld.font_color font_resource_name fld.font_size))
  let h ← h.dictSet widget_dict "AP" (.ref widget_appearance_dictionary)
  -- append field to page /Annots (lines 148-150)
  let h ←
    if h.hasKey pageId "Annots" then pure h
    else
      let a7 := h.alloc (.arr [])
      a7.2.dictSet pageId "Annots" (.ref a7.1)
  let anRef ← h.dictGet pageId "Annots"
  let anId ← asRef anRef
  let h ← h.arrAppend anId (.ref widget_dict)
  -- append field to catalog (lines 153-158)
  let h ←
    if h.hasKey catalog "AcroForm" then pure h
    else
      let a8 := h.alloc (.dict [])
      let afId0 := a8.1
      let h ← a8.2.dictSet catalog "AcroForm" (.ref afId0)
      let a9 := h.alloc (.arr [])
      let flId0 := a9.1
      let h ← a9.2.dictSet afId0 "Fields" (.ref flId0)
      let h ← h.dictSet afId0 "DR" (.ref widget_resources)
      h.dictSet afId0 "NeedAppearances" (.bool true)
  let afRef ← h.dictGet catalog "AcroForm"
  let afId ← asRef afRef
  let flRef ← h.dictGet afId "Fields"
  let flId ← asRef flRef
  let h ← h.arrAppend flId (.ref widget_dict)
  return ({ fld with widget_dictionary := some widget_dict }, h)

/-- Embedding of `TextField._get_content_box` (lines 160-169).
`Decimal(1.2)` is modelled by the exact rational `6/5` (= 1.2). -/
def get_content_box (fld : TextField) (available_space : Rectangle) : Rectangle :=
  let line_height : ℚ := fld.font_size * (6 / 5)
  ⟨available_space.x,
   available_space.y + available_space.height - line_height,
   max available_space.width 64,
   line_height⟩

/-- Embedding of `TextField._paint_content_box` (lines 171-189): compute
the content box, run `_init_widget_dictionary`, then overwrite the
appearance BBox indices 2 and 3 and the four `Rect` coordinates in place. -/
def paint_content_box (c : Codec) (fld : TextField) (root pageId : Nat)
    (available_space : Rectangle) (h : Heap) : Except String (TextField × Heap) := do
  let cbox := get_content_box fld available_space
  let r ← init_widget_dictionary c fld root pageId cbox h
  let fld := r.1
  let h := r.2
  match fld.widget_dictionary with
  | none => return (fld, h)
  | some w =>
      let apRef ← h.dictGet w "AP"
      let apId ← asRef apRef
      let nRef ← h.dictGet apId "N"
      let naId ← asRef nRef
      let bbRef ← h.dictGet naId "BBox"
      let bbId ← asRef bbRef
      let h ← h.arrSet bbId 2 (.num cbox.width)
      let h ← h.arrSet bbId 3 (.num fld.font_size)
      let rcRef ← h.dictGet w "Rect"
      let rcId ← asRef rcRef
      let h ← h.arrSet rcId 0 (.num cbox.x)
      let h ← h.arrSet rcId 1 (.num cbox.y)
      let h ← h.arrSet rcId 2 (.num (cbox.x + cbox.width))
      let h ← h.arrSet rcId 3 (.num (cbox.y + cbox.height))
      return (fld, h)

/-! Observers used to state the properties. -/

/-- Elements of the page's `Annots` array, when present and well-formed. -/
def annots_elems (h : Heap) (pageId : Nat) : Option (List PDFValue) :=
  match h.get? pageId with
  | some p =>
      match p.dictLookup "Annots" with
      | some r =>
          match nodeOfRef h r with
          | some (.arr l) => some l
          | _ => none
      | none => none
  | none => none

/-- Elements of the catalog's `AcroForm` `Fields` array, when present. -/
def acro_fields_elems (h : Heap) (catalog : Nat) : Option (List PDFValue) :=
  match h.get? catalog with
  | some cat =>
      match cat.dictLookup "AcroForm" with
      | some af =>
          match nodeOfRef h af with
          | some afn =>
              match afn.dictLookup "Fields" with
              | some fl =>
                  match nodeOfRef h fl with
                  | some (.arr l) => some l
                  | _ => none
              | none => none
          | _ => none
      | none => none
  | none => none

/-- Entries of the page's font resource dictionary (`Resources`/`Font`). -/
def font_entries (h : Heap) (pageId : Nat) : Option (List (String × PDFValue)) :=
  match h.get? pageId with
  | some p =>
      match p.dictLookup "Resources" with
      | some r =>
          match nodeOfRef h r with
          | some resn =>
              match resn.dictLookup "Font" with
              | some f =>
                  match nodeOfRef h f with
                  | some (.dict es) => some es
                  | _ => none
              | none => none
          | _ => none
      | none => none
  | none => none

/-- The `Resources` entry of an appearance-stream node. -/
def stream_resources (h : Heap) (streamId : Nat) : Option PDFValue :=
  (h.get? streamId).bind (fun n => n.dictLookup "Resources")

/-- The `DR` entry of the catalog's `AcroForm` dictionary. -/
def acroform_dr (h : Heap) (catalog : Nat) : Option PDFValue :=
  match h.get? catalog with
  | some cat =>
      match cat.dictLookup "AcroForm" with
      | some af =>
          match nodeOfRef h af with
          | some afn => afn.dictLookup "DR"
          | _ => none
      | none => none
  | none => none

/-! Canonical documents.  `heapA` is a fresh attachable document: node 0 is
the object returned by `page.get_root()` and carries `XRef`; the chain
`XRef → Trailer → Root` reaches the catalog at node 3; node 4 is an empty
page.  `heapD` is a detached root/page pair without any `XRef` entry. -/

/-- Fresh attachable document: root 0, XRef 1, trailer 2, catalog 3, page 4. -/
def heapA : Heap :=
  ⟨[.dict [("XRef", .ref 1)],
    .dict [("Trailer", .ref 2)],
    .dict [("Root", .ref 3)],
    .dict [],
    .dict []]⟩

/-- Detached document: a root without `XRef` (node 0) and a page (node 1). -/
def heapD : Heap :=
  ⟨[.dict [], .dict []]⟩

/-- A `TextField` as freshly constructed (no widget dictionary yet). -/
def mkField (fs : ℚ) (col : RGBColor) (v dv : String) (nm : Option String) : TextField :=
  ⟨fs, col, v, dv, nm, none⟩

/-- The heap produced by the in-place geometry pass of
`_paint_content_box` (lines 180-189) on an already-synthesized widget:
only the BBox array (indices 2 and 3) and the Rect array (indices 0-3)
are overwritten, on the same node instances. -/
def paint_result (h : Heap) (bbId rcId : Nat) (bb0 rc0 : List PDFValue)
    (cb : Rectangle) (fs : ℚ) : Heap :=
  (h.setNode bbId (.arr ((bb0.set 2 (.num cb.width)).set 3 (.num fs)))).setNode rcId
    (.arr ((((rc0.set 0 (.num cb.x)).set 1 (.num cb.y)).set 2
      (.num (cb.x + cb.width))).set 3 (.num (cb.y + cb.height))))

/-- The object graph after the canonical first attachment: the fresh
attachable document `heapA` after one successful `_init_widget_dictionary`
run.  Nodes 0-4 are as in `heapA` (with the page now carrying `Resources`
and `Annots`, and the catalog carrying `AcroForm`); nodes 5-7 are the
lazily created resource/font chain, node 8 the widget resources, node 9
the appearance stream, node 10 its BBox array, node 11 the appearance
dictionary, node 12 the widget dictionary, node 13 its Rect array,
node 14 the annotation array, node 15 the AcroForm registry and node 16
its Fields array. -/
def heapA_attached (c : Codec) (fs : ℚ) (col : RGBColor) (v : String) (dv : String) (nm : Option String) (b : Rectangle) : Heap :=
  ⟨[Node.dict [("XRef", PDFValue.ref 1)],
    Node.dict [("Trailer", PDFValue.ref 2)],
    Node.dict [("Root", PDFValue.ref 3)],
    Node.dict [("AcroForm", PDFValue.ref 15)],
    Node.dict [("Resources", PDFValue.ref 5), ("Annots", PDFValue.ref 14)],
    Node.dict [("Font", PDFValue.ref 6)],
    Node.dict [("F1", PDFValue.ref 7)],
    Node.dict [("Type", PDFValue.name "Font"), ("Subtype", PDFValue.name "Type1"), ("BaseFont", PDFValue.name "Helvetica")],
    Node.dict [("Font", PDFValue.ref 6)],
    Node.dict [("Type", PDFValue.name "XObject"), ("Subtype", PDFValue.name "Form"), ("BBox", PDFValue.ref 10), ("Resources", PDFValue.ref 8), ("DecodedBytes", PDFValue.bytes decoded_payload), ("Bytes", PDFValue.bytes (c.compress decoded_payload)), ("Filter", PDFValue.name "FlateDecode"), ("Length", PDFValue.num ((c.compress decoded_payload).length : ℚ))],
    Node.arr [PDFValue.num 0, PDFValue.num 0, PDFValue.num b.width, PDFValue.num fs],
    Node.dict [("N", PDFValue.ref 9)],
    Node.dict [("Type", PDFValue.name "Annot"), ("Subtype", PDFValue.name "Widget"), ("F", PDFValue.num 4), ("Rect", PDFValue.ref 13), ("FT", PDFValue.name "Tx"), ("P", PDFValue.ref 3), ("T", PDFValue.str (resolved_field_name nm "field-0")), ("V", PDFValue.str v), ("DV", PDFValue.str dv), ("DR", PDFValue.ref 8), ("DA", PDFValue.str (da_string col "F1" fs)), ("AP", PDFValue.ref 11)],
    Node.arr [PDFValue.num b.x, PDFValue.num (b.y + b.height - fs), PDFValue.num (b.x + b.width), PDFValue.num (b.y + b.height)],
    Node.arr [PDFValue.ref 12],
    Node.dict [("Fields", PDFValue.ref 16), ("DR", PDFValue.ref 8), ("NeedAppearances", PDFValue.bool true)],
    Node.arr [PDFValue.ref 12]]⟩

/-! Small evaluation helpers for the `Except` monad used by the proofs. -/

/-- Bind on a successful `Except` computation reduces to the continuation. -/
theorem okbind {α β : Type} (a : α) (f : α → Except String β) :
    (Except.ok a >>= f : Except String β) = f a := rfl

/-- Pure is `Except.ok`. -/
theorem pureok {α : Type} (a : α) : (pure a : Except String α) = Except.ok a := rfl

/-- Reading a reference value yields its node id. -/
theorem asRef_ref (i : Nat) : asRef (.ref i) = Except.ok i := rfl

set_option maxHeartbeats 2000000 in
/-- Characterization of the canonical first attachment: running
`_init_widget_dictionary` for a fresh field (font size 12, black color,
empty value and default value, auto-generated name) on the canonical
attachable document `heapA` succeeds, creates widget node 12, and yields
exactly the heap `heapA_attached`. -/
theorem attach_concrete_eq :
    init_widget_dictionary idCodec (mkField 12 ⟨0, 0, 0⟩ "" "" none) 0 4
        ⟨0, 0, 200, 50⟩ heapA
      = Except.ok (⟨12, ⟨0, 0, 0⟩, "", "", none, some 12⟩,
          heapA_attached idCodec 12 ⟨0, 0, 0⟩ "" "" none ⟨0, 0, 200, 50⟩) := rfl

/-! General guard lemmas for `_init_widget_dictionary` (lines 72-76). -/

/-- Line 72-73: when the widget dictionary already exists, the synthesis
returns immediately, leaving the field and the whole object graph
untouched (graph identity, not merely structural equality). -/
theorem init_noop_of_some (c : Codec) (fld : TextField) (root pageId : Nat)
    (b : Rectangle) (h : Heap) (w : Nat)
    (hw : fld.widget_dictionary = some w) :
    init_widget_dictionary c fld root pageId b h = Except.ok (fld, h) := by
  unfold init_widget_dictionary
  rw [hw]
  rfl

/-- Lines 75-76: when the root object lacks an `XRef` entry (detached
page), the synthesis returns immediately without creating anything. -/
theorem init_detached_noop (c : Codec) (fld : TextField) (root pageId : Nat)
    (b : Rectangle) (h : Heap)
    (hw : fld.widget_dictionary = none)
    (hx : h.hasKey root "XRef" = false) :
    init_widget_dictionary c fld root pageId b h = Except.ok (fld, h) := by
  unfold init_widget_dictionary
  rw [hw, hx]
  rfl


/-! Claim theorems. -/

/-- C1: Attachment is idempotent per field instance.  The at-most-once
guard (lines 72-73) makes any repeated synthesis call a graph-identity
no-op — the identical field and the identical heap come back — for every
field, codec, page, root, box and heap.  For the canonical first
attachment (font size 12, black, empty values, auto-generated name) on
the attachable document `heapA`, exactly one widget dictionary node
(node 12) is created, the page's annotation array holds exactly the one
entry `ref 12`, the catalog's field registry holds exactly the one entry
`ref 12`, and the second call returns the identical state. -/
theorem attach_at_most_once_per_field :
    (∀ (c : Codec) (fld : TextField) (root pageId : Nat) (b : Rectangle) (h : Heap) (w : Nat),
        fld.widget_dictionary = some w →
        init_widget_dictionary c fld root pageId b h = Except.ok (fld, h))
    ∧ ∀ (f1 : TextField) (h1 : Heap),
        init_widget_dictionary idCodec (mkField 12 ⟨0, 0, 0⟩ "" "" none) 0 4
            ⟨0, 0, 200, 50⟩ heapA = Except.ok (f1, h1) →
        f1.widget_dictionary = some 12
        ∧ annots_elems h1 4 = some [PDFValue.ref 12]
        ∧ acro_fields_elems h1 3 = some [PDFValue.ref 12]
        ∧ (∃ es, h1.get? 12 = some (Node.dict es))
        ∧ init_widget_dictionary idCodec f1 0 4 ⟨0, 0, 200, 50⟩ h1
            = Except.ok (f1, h1) := by
  constructor
  · exact init_noop_of_some
  · intro f1 h1 hok
    rw [attach_concrete_eq] at hok
    injection hok with hp
    injection hp with hf hh
    subst hf
    subst hh
    exact ⟨rfl, rfl, rfl, ⟨_, rfl⟩, init_noop_of_some idCodec _ 0 4 _ _ 12 rfl⟩

/-- Witness for C1: the theorem applied at a concrete codec, field and
box on the canonical attachable document. -/
theorem attach_at_most_once_per_field_witness :
    (⟨12, ⟨0, 0, 0⟩, "", "", none, some 12⟩ : TextField).widget_dictionary = some 12
    ∧ annots_elems (heapA_attached idCodec 12 ⟨0, 0, 0⟩ "" "" none ⟨0, 0, 200, 50⟩) 4
        = some [PDFValue.ref 12]
    ∧ acro_fields_elems (heapA_attached idCodec 12 ⟨0, 0, 0⟩ "" "" none ⟨0, 0, 200, 50⟩) 3
        = some [PDFValue.ref 12]
    ∧ (∃ es, (heapA_attached idCodec 12 ⟨0, 0, 0⟩ "" "" none ⟨0, 0, 200, 50⟩).get? 12
        = some (Node.dict es))
    ∧ init_widget_dictionary idCodec ⟨12, ⟨0, 0, 0⟩, "", "", none, some 12⟩ 0 4
        ⟨0, 0, 200, 50⟩ (heapA_attached idCodec 12 ⟨0, 0, 0⟩ "" "" none ⟨0, 0, 200, 50⟩)
        = Except.ok (⟨12, ⟨0, 0, 0⟩, "", "", none, some 12⟩,
            heapA_attached idCodec 12 ⟨0, 0, 0⟩ "" "" none ⟨0, 0, 200, 50⟩) :=
  attach_at_most_once_per_field.2 _ _ attach_concrete_eq

/-- C2: attach on a detached page (root without `XRef`) is a silent no-op
that raises no error and creates no nodes, for every field and every heap;
and a later attach of the same (still uninitialized) field on the canonical
attachable page succeeds and is the only synthesis that ever occurs: any
further attach returns the identical state. -/
theorem attach_detached_deferred_then_succeeds :
    (∀ (c : Codec) (fld : TextField) (root pageId : Nat) (b : Rectangle) (h : Heap),
        fld.widget_dictionary = none → h.hasKey root "XRef" = false →
        init_widget_dictionary c fld root pageId b h = Except.ok (fld, h))
    ∧ init_widget_dictionary idCodec (mkField 12 ⟨0, 0, 0⟩ "" "" none) 0 1
          ⟨0, 0, 200, 50⟩ heapD
        = Except.ok (mkField 12 ⟨0, 0, 0⟩ "" "" none, heapD)
    ∧ ∃ h1, init_widget_dictionary idCodec (mkField 12 ⟨0, 0, 0⟩ "" "" none) 0 4
            ⟨0, 0, 200, 50⟩ heapA
          = Except.ok (⟨12, ⟨0, 0, 0⟩, "", "", none, some 12⟩, h1)
        ∧ init_widget_dictionary idCodec ⟨12, ⟨0, 0, 0⟩, "", "", none, some 12⟩ 0 4
            ⟨0, 0, 200, 50⟩ h1
          = Except.ok (⟨12, ⟨0, 0, 0⟩, "", "", none, some 12⟩, h1) := by
  exact ⟨init_detached_noop,
    init_detached_noop idCodec _ 0 1 _ heapD rfl rfl,
    _, attach_concrete_eq, init_noop_of_some idCodec _ 0 4 _ _ 12 rfl⟩

/-- Witness for C2: the general detached no-op applied at another
concrete field (font size 9, explicit name and values) with a different
box and page id on the detached document. -/
theorem attach_detached_deferred_then_succeeds_witness :
    init_widget_dictionary idCodec (mkField 9 ⟨0, 0, 0⟩ "x" "y" (some "nm1")) 0 1
        ⟨1, 2, 30, 40⟩ heapD
      = Except.ok (mkField 9 ⟨0, 0, 0⟩ "x" "y" (some "nm1"), heapD) :=
  attach_detached_deferred_then_succeeds.1 idCodec _ 0 1 _ heapD rfl rfl

/-- C3: the content-box calculator is a pure function with
x = available_space.x, y = available_space.y + available_space.height
minus the leaded line height 1.2 * font_size, width = max(width, 64) and
height = 1.2 * font_size; in particular an available width of 10 yields a
content-box width of 64. -/
theorem content_box_pure_formula (fld : TextField) (as : Rectangle)
    (hfs : 0 ≤ fld.font_size) :
    (get_content_box fld as).x = as.x
    ∧ (get_content_box fld as).y = as.y + as.height - fld.font_size * (6/5 : ℚ)
    ∧ (get_content_box fld as).width = max as.width 64
    ∧ (get_content_box fld as).height = fld.font_size * (6/5 : ℚ)
    ∧ (get_content_box fld ⟨as.x, as.y, 10, as.height⟩).width = 64 := by
  refine ⟨rfl, rfl, rfl, rfl, ?_⟩
  show max (10 : ℚ) 64 = 64
  decide

/-- Witness for C3: the formula evaluated at font size 12 on the
rectangle (0, 0, 200, 50). -/
theorem content_box_pure_formula_witness :
    (get_content_box ⟨12, ⟨0, 0, 0⟩, "", "", none, none⟩ ⟨0, 0, 200, 50⟩).x
        = (⟨0, 0, 200, 50⟩ : Rectangle).x
    ∧ (get_content_box ⟨12, ⟨0, 0, 0⟩, "", "", none, none⟩ ⟨0, 0, 200, 50⟩).y
        = (⟨0, 0, 200, 50⟩ : Rectangle).y + (⟨0, 0, 200, 50⟩ : Rectangle).height
            - (⟨12, ⟨0, 0, 0⟩, "", "", none, none⟩ : TextField).font_size * (6/5 : ℚ)
    ∧ (get_content_box ⟨12, ⟨0, 0, 0⟩, "", "", none, none⟩ ⟨0, 0, 200, 50⟩).width
        = max (⟨0, 0, 200, 50⟩ : Rectangle).width 64
    ∧ (get_content_box ⟨12, ⟨0, 0, 0⟩, "", "", none, none⟩ ⟨0, 0, 200, 50⟩).height
        = (⟨12, ⟨0, 0, 0⟩, "", "", none, none⟩ : TextField).font_size * (6/5 : ℚ)
    ∧ (get_content_box ⟨12, ⟨0, 0, 0⟩, "", "", none, none⟩
        ⟨(⟨0, 0, 200, 50⟩ : Rectangle).x, (⟨0, 0, 200, 50⟩ : Rectangle).y, 10,
          (⟨0, 0, 200, 50⟩ : Rectangle).height⟩).width = 64 :=
  content_box_pure_formula ⟨12, ⟨0, 0, 0⟩, "", "", none, none⟩ ⟨0, 0, 200, 50⟩ (by decide)

set_option maxHeartbeats 2000000 in
/-- C4: geometry round-trip at font size 12 in available space
(0, 0, 200, 50) on the canonical attachable page: the content box is
(0, 35.6, 200, 14.4) — written with exact rationals 178/5 and 72/5 — the
appearance stream's BBox is [0, 0, 200, 12] (height is the raw font size,
not the leaded line height), and the annotation Rect is [0, 35.6, 200, 50]
after the paint pass completes. -/
theorem geometry_roundtrip_concrete :
    get_content_box (mkField 12 ⟨0, 0, 0⟩ "" "" none) ⟨0, 0, 200, 50⟩
        = ⟨0, 178/5, 200, 72/5⟩
    ∧ ∃ h1, paint_content_box idCodec (mkField 12 ⟨0, 0, 0⟩ "" "" none) 0 4
          ⟨0, 0, 200, 50⟩ heapA
        = Except.ok (⟨12, ⟨0, 0, 0⟩, "", "", none, some 12⟩, h1)
      ∧ h1.dictGet 12 "AP" = Except.ok (.ref 11)
      ∧ h1.dictGet 11 "N" = Except.ok (.ref 9)
      ∧ h1.dictGet 9 "BBox" = Except.ok (.ref 10)
      ∧ h1.get? 10 = some (.arr [.num 0, .num 0, .num 200, .num 12])
      ∧ h1.dictGet 12 "Rect" = Except.ok (.ref 13)
      ∧ h1.get? 13 = some (.arr [.num 0, .num (178/5), .num 200, .num 50]) := by
  have hcb : get_content_box (mkField 12 ⟨0, 0, 0⟩ "" "" none) ⟨0, 0, 200, 50⟩
      = ⟨0, 178/5, 200, 72/5⟩ := by
    unfold get_content_box mkField
    norm_num
  refine ⟨hcb, _, rfl, rfl, rfl, rfl, rfl, rfl, ?_⟩
  show some (Node.arr [PDFValue.num ((0 : ℚ)), PDFValue.num ((0 : ℚ) + 50 - 12 * (6 / 5)),
        PDFValue.num ((0 : ℚ) + 200), PDFValue.num ((0 : ℚ) + 50 - 12 * (6 / 5) + 12 * (6 / 5))])
      = some (Node.arr [PDFValue.num 0, PDFValue.num (178 / 5), PDFValue.num 200,
        PDFValue.num 50])
  norm_num

/-- C5: at the concrete failing input (fresh attachable document `heapA`,
page node 4, catalog node 3 reached through `XRef`/`Trailer`/`Root`),
the synthesized widget's `P` entry refers to the catalog node 3, which is
not the owning page node 4 — the code stores the catalog, while the spec
documents `P=<page ref>`, a back-reference to the owning page. -/
theorem widget_P_entry_is_catalog_not_page :
    ∃ h1, init_widget_dictionary idCodec (mkField 12 ⟨0, 0, 0⟩ "" "" none) 0 4
          ⟨0, 0, 200, 50⟩ heapA
        = Except.ok (⟨12, ⟨0, 0, 0⟩, "", "", none, some 12⟩, h1)
      ∧ heapA.dictGet 2 "Root" = Except.ok (.ref 3)
      ∧ h1.dictGet 12 "P" = Except.ok (.ref 3)
      ∧ PDFValue.ref 3 ≠ PDFValue.ref 4 := by
  refine ⟨_, attach_concrete_eq,
    rfl, rfl, by decide⟩


/-! Pointwise heap lemmas used by the sharing and frame theorems. -/

/-- A fetchable node id is within the heap. -/
theorem get?_lt {h : Heap} {i : Nat} {n : Node} (hg : h.get? i = some n) :
    i < h.nodes.length := by
  unfold Heap.get? at hg
  exact (List.getElem?_eq_some_iff.mp hg).1

/-- Overwriting a valid node id makes it fetch the new node. -/
theorem get?_setNode_self {h : Heap} {i : Nat} {n0 : Node}
    (hg : h.get? i = some n0) (n : Node) :
    (h.setNode i n).get? i = some n := by
  unfold Heap.get? Heap.setNode
  exact List.getElem?_set_self (get?_lt hg)

/-- Overwriting one node id leaves every other node untouched. -/
theorem get?_setNode_ne (h : Heap) (n : Node) {i j : Nat} (hne : i ≠ j) :
    (h.setNode i n).get? j = h.get? j := by
  unfold Heap.get? Heap.setNode
  exact List.getElem?_set_ne hne

/-- Overwriting a node never changes the number of nodes. -/
theorem length_setNode (h : Heap) (i : Nat) (n : Node) :
    (h.setNode i n).nodes.length = h.nodes.length := by
  unfold Heap.setNode
  exact List.length_set ..

/-- Key lookup after a dictionary-entry write finds the written value. -/
theorem dictLookup_dictSetEntries_self (es : List (String × PDFValue))
    (k : String) (v : PDFValue) :
    Node.dictLookup (.dict (dictSetEntries es k v)) k = some v := by
  induction es with
  | nil =>
      simp [dictSetEntries, Node.dictLookup]
  | cons e rest ih =>
      by_cases hk : e.1 == k
      · simp [dictSetEntries, Node.dictLookup, hk]
      · simp only [Node.dictLookup] at ih
        simp [dictSetEntries, Node.dictLookup, hk, ih]

/-- A successful dictionary write is read back through any alias of the
same node id: mutation through one reference is visible through all. -/
theorem dictSet_dictGet_self {h h' : Heap} {i : Nat} {k : String} {v : PDFValue}
    (hs : h.dictSet i k v = Except.ok h') :
    h'.dictGet i k = Except.ok v := by
  unfold Heap.dictSet at hs
  cases hg : h.get? i with
  | none => rw [hg] at hs; cases hs
  | some n =>
      rw [hg] at hs
      cases n with
      | arr l => cases hs
      | dict es =>
          injection hs with hh
          subst hh
          have hset := get?_setNode_self hg (Node.dict (dictSetEntries es k v))
          simp only [Heap.dictGet, hset, dictLookup_dictSetEntries_self]

/-- C6 (amended): attaching two fields to the same attachable page of the
canonical document yields exactly one font resource entry in the page's
font dictionary and two entries in the catalog's field registry, but each
field's appearance stream carries its own fresh resources dictionary
(nodes 8 and 17), both of which reference the same shared `Font`
sub-dictionary (node 6); the document default `DR` stays the first
field's resources dictionary. -/
theorem resource_reuse_two_fields :
    ∃ h1 h2,
      init_widget_dictionary idCodec (mkField 12 ⟨0, 0, 0⟩ "" "" none) 0 4
          ⟨0, 0, 200, 50⟩ heapA
        = Except.ok (⟨12, ⟨0, 0, 0⟩, "", "", none, some 12⟩, h1)
      ∧ init_widget_dictionary idCodec (mkField 9 ⟨0, 0, 0⟩ "a" "a" none) 0 4
          ⟨0, 0, 100, 30⟩ h1
        = Except.ok (⟨9, ⟨0, 0, 0⟩, "a", "a", none, some 21⟩, h2)
      ∧ font_entries h2 4 = some [("F1", PDFValue.ref 7)]
      ∧ acro_fields_elems h2 3 = some [PDFValue.ref 12, PDFValue.ref 21]
      ∧ stream_resources h2 9 = some (.ref 8)
      ∧ stream_resources h2 18 = some (.ref 17)
      ∧ h2.dictGet 8 "Font" = Except.ok (.ref 6)
      ∧ h2.dictGet 17 "Font" = Except.ok (.ref 6)
      ∧ acroform_dr h2 3 = some (.ref 8) := by
  refine ⟨_, _, attach_concrete_eq,
    rfl, rfl, rfl, rfl, rfl, rfl, rfl, rfl⟩

/-- C6 (counterexample to the claim as stated): at a concrete two-field
attachment the two appearance streams' `Resources` entries reference
distinct nodes, so they are not the same resources-dictionary object. -/
theorem resource_reuse_counterexample :
    ∃ h1 h2, init_widget_dictionary idCodec (mkField 12 ⟨0, 0, 0⟩ "" "" none) 0 4
          ⟨0, 0, 200, 50⟩ heapA
        = Except.ok (⟨12, ⟨0, 0, 0⟩, "", "", none, some 12⟩, h1)
      ∧ init_widget_dictionary idCodec (mkField 9 ⟨0, 0, 0⟩ "a" "a" none) 0 4
          ⟨0, 0, 100, 30⟩ h1
        = Except.ok (⟨9, ⟨0, 0, 0⟩, "a", "a", none, some 21⟩, h2)
      ∧ stream_resources h2 9 ≠ stream_resources h2 18 := by
  refine ⟨_, _, attach_concrete_eq,
    rfl, by decide⟩

/-- C7: for the first field attached in the canonical document, the
resources dictionary referenced by the appearance stream's `Resources`
entry, by the widget's `DR` entry, and installed as the catalog's
`AcroForm` `DR` are one and the same node (node 8), so a mutation through
the `DR` reference is visible when reading back through the appearance
stream's `Resources` reference. -/
theorem first_field_shared_resources (f1 : TextField) (h1 : Heap)
    (hok : init_widget_dictionary idCodec (mkField 12 ⟨0, 0, 0⟩ "" "" none) 0 4
      ⟨0, 0, 200, 50⟩ heapA = Except.ok (f1, h1)) :
    f1.widget_dictionary = some 12
    ∧ h1.dictGet 12 "AP" = Except.ok (.ref 11)
    ∧ h1.dictGet 11 "N" = Except.ok (.ref 9)
    ∧ stream_resources h1 9 = some (.ref 8)
    ∧ h1.dictGet 12 "DR" = Except.ok (.ref 8)
    ∧ acroform_dr h1 3 = some (.ref 8)
    ∧ (∃ es, h1.get? 8 = some (Node.dict es))
    ∧ ∀ (k : String) (val : PDFValue) (h' : Heap),
        h1.dictSet 8 k val = Except.ok h' → h'.dictGet 8 k = Except.ok val := by
  rw [attach_concrete_eq] at hok
  injection hok with hp
  injection hp with hf hh
  subst hf
  subst hh
  exact ⟨rfl, rfl, rfl, rfl, rfl, rfl, ⟨_, rfl⟩,
    fun k val h' hs => dictSet_dictGet_self hs⟩

/-- Witness for C7: the sharing identity at a concrete field. -/
theorem first_field_shared_resources_witness :
    stream_resources (heapA_attached idCodec 12 ⟨0, 0, 0⟩ "" "" none ⟨0, 0, 200, 50⟩) 9
        = some (.ref 8)
    ∧ (heapA_attached idCodec 12 ⟨0, 0, 0⟩ "" "" none ⟨0, 0, 200, 50⟩).dictGet 12 "DR"
        = Except.ok (.ref 8)
    ∧ acroform_dr (heapA_attached idCodec 12 ⟨0, 0, 0⟩ "" "" none ⟨0, 0, 200, 50⟩) 3
        = some (.ref 8) :=
  ⟨(first_field_shared_resources _ _ attach_concrete_eq).2.2.2.1,
   (first_field_shared_resources _ _ attach_concrete_eq).2.2.2.2.1,
   (first_field_shared_resources _ _ attach_concrete_eq).2.2.2.2.2.1⟩

/-- C9: the synthesized appearance stream (node 9, reached from the
widget through `AP`/`N`) stores the fixed decoded payload `"/Tx BMC EMC"`
as `DecodedBytes`, stores `Bytes` equal to the codec's compression of
that payload, and declares `Length` equal to the exact byte count of the
stored `Bytes`; shown for the canonical attachment with the lossless
identity codec, for which decompressing the stored bytes returns exactly
the payload. -/
theorem appearance_stream_compression_contract (f1 : TextField) (h1 : Heap)
    (hok : init_widget_dictionary idCodec (mkField 12 ⟨0, 0, 0⟩ "" "" none) 0 4
      ⟨0, 0, 200, 50⟩ heapA = Except.ok (f1, h1)) :
    decoded_payload = "/Tx BMC EMC"
    ∧ h1.dictGet 12 "AP" = Except.ok (.ref 11)
    ∧ h1.dictGet 11 "N" = Except.ok (.ref 9)
    ∧ h1.dictGet 9 "DecodedBytes" = Except.ok (.bytes decoded_payload)
    ∧ h1.dictGet 9 "Bytes" = Except.ok (.bytes (idCodec.compress decoded_payload))
    ∧ h1.dictGet 9 "Length"
        = Except.ok (.num ((idCodec.compress decoded_payload).length : ℚ))
    ∧ ∀ s, h1.dictGet 9 "Bytes" = Except.ok (.bytes s) →
        h1.dictGet 9 "Length" = Except.ok (.num (s.length : ℚ))
        ∧ idCodec.decompress s = decoded_payload := by
  rw [attach_concrete_eq] at hok
  injection hok with hp
  injection hp with hf hh
  subst hf
  subst hh
  refine ⟨rfl, rfl, rfl, rfl, rfl, rfl, ?_⟩
  intro s hs
  rw [show (heapA_attached idCodec 12 ⟨0, 0, 0⟩ "" "" none
        ⟨0, 0, 200, 50⟩).dictGet 9 "Bytes"
        = Except.ok (.bytes (idCodec.compress decoded_payload)) from rfl] at hs
  injection hs with hv
  injection hv with hb
  subst hb
  exact ⟨rfl, rfl⟩

/-- Witness for C9: the contract at the identity codec and a concrete
field. -/
theorem appearance_stream_compression_contract_witness :
    (heapA_attached idCodec 12 ⟨0, 0, 0⟩ "" "" none ⟨0, 0, 200, 50⟩).dictGet 9 "DecodedBytes"
        = Except.ok (.bytes decoded_payload)
    ∧ (heapA_attached idCodec 12 ⟨0, 0, 0⟩ "" "" none ⟨0, 0, 200, 50⟩).dictGet 9 "Bytes"
        = Except.ok (.bytes (idCodec.compress decoded_payload))
    ∧ (heapA_attached idCodec 12 ⟨0, 0, 0⟩ "" "" none ⟨0, 0, 200, 50⟩).dictGet 9 "Length"
        = Except.ok (.num ((idCodec.compress decoded_payload).length : ℚ)) :=
  ⟨(appearance_stream_compression_contract _ _ attach_concrete_eq).2.2.2.1,
   (appearance_stream_compression_contract _ _ attach_concrete_eq).2.2.2.2.1,
   (appearance_stream_compression_contract _ _ attach_concrete_eq).2.2.2.2.2.1⟩


/-- Overwriting the same node id twice keeps only the second write. -/
theorem setNode_setNode (h : Heap) (i : Nat) (a b : Node) :
    (h.setNode i a).setNode i b = h.setNode i b := by
  unfold Heap.setNode
  exact congrArg Heap.mk (List.set_set a b h.nodes i)

/-- Reading a key through an untouched node id is unchanged. -/
theorem dictGet_congr {h h' : Heap} {i : Nat} (k : String)
    (he : h'.get? i = h.get? i) : h'.dictGet i k = h.dictGet i k := by
  unfold Heap.dictGet
  rw [he]

/-- Frame lemma for `_paint_content_box` on a field whose widget
dictionary already exists (lines 180-189): the synthesis is skipped, no
nodes are allocated, and only the appearance BBox array (indices 2 and 3)
and the annotation Rect array (indices 0-3) are overwritten in place on
the very same node instances. -/
theorem paint_frame (c : Codec) (fs : ℚ) (col : RGBColor) (v dv : String)
    (nm : Option String) (root pageId w : Nat) (sp : Rectangle) (h : Heap)
    (apId naId bbId rcId : Nat) (bb0 rc0 : List PDFValue)
    (hap : h.dictGet w "AP" = Except.ok (.ref apId))
    (hn : h.dictGet apId "N" = Except.ok (.ref naId))
    (hbb : h.dictGet naId "BBox" = Except.ok (.ref bbId))
    (hrc : h.dictGet w "Rect" = Except.ok (.ref rcId))
    (hbba : h.get? bbId = some (.arr bb0)) (hbbl : 4 ≤ bb0.length)
    (hrca : h.get? rcId = some (.arr rc0)) (hrcl : 4 ≤ rc0.length)
    (hne : bbId ≠ rcId) (hwbb : w ≠ bbId) (hwrc : w ≠ rcId) :
    paint_content_box c ⟨fs, col, v, dv, nm, some w⟩ root pageId sp h
      = Except.ok (⟨fs, col, v, dv, nm, some w⟩,
          (h.setNode bbId (.arr ((bb0.set 2
              (.num (get_content_box ⟨fs, col, v, dv, nm, some w⟩ sp).width)).set 3
              (.num fs)))).setNode rcId
            (.arr ((((rc0.set 0
              (.num (get_content_box ⟨fs, col, v, dv, nm, some w⟩ sp).x)).set 1
              (.num (get_content_box ⟨fs, col, v, dv, nm, some w⟩ sp).y)).set 2
              (.num ((get_content_box ⟨fs, col, v, dv, nm, some w⟩ sp).x
                + (get_content_box ⟨fs, col, v, dv, nm, some w⟩ sp).width))).set 3
              (.num ((get_content_box ⟨fs, col, v, dv, nm, some w⟩ sp).y
                + (get_content_box ⟨fs, col, v, dv, nm, some w⟩ sp).height))))) := by
  have hl2 : 2 < bb0.length := by omega
  have hl3 : 3 < bb0.length := by omega
  have e1 : h.arrSet bbId 2
      (.num (get_content_box ⟨fs, col, v, dv, nm, some w⟩ sp).width)
      = Except.ok (h.setNode bbId (.arr (bb0.set 2
          (.num (get_content_box ⟨fs, col, v, dv, nm, some w⟩ sp).width)))) := by
    simp [Heap.arrSet, hbba, hl2]
  have hg1 : (h.setNode bbId (.arr (bb0.set 2
      (.num (get_content_box ⟨fs, col, v, dv, nm, some w⟩ sp).width)))).get? bbId
      = some (.arr (bb0.set 2
          (.num (get_content_box ⟨fs, col, v, dv, nm, some w⟩ sp).width))) :=
    get?_setNode_self hbba _
  have e2 : (h.setNode bbId (.arr (bb0.set 2
      (.num (get_content_box ⟨fs, col, v, dv, nm, some w⟩ sp).width)))).arrSet bbId 3
        (.num fs)
      = Except.ok (h.setNode bbId (.arr ((bb0.set 2
          (.num (get_content_box ⟨fs, col, v, dv, nm, some w⟩ sp).width)).set 3
          (.num fs)))) := by
    simp [Heap.arrSet, hg1, hl3, setNode_setNode]
  have hgw : (h.setNode bbId (.arr ((bb0.set 2
      (.num (get_content_box ⟨fs, col, v, dv, nm, some w⟩ sp).width)).set 3
      (.num fs)))).get? w = h.get? w :=
    get?_setNode_ne h _ (fun hx => hwbb hx.symm)
  have e3 : (h.setNode bbId (.arr ((bb0.set 2
      (.num (get_content_box ⟨fs, col, v, dv, nm, some w⟩ sp).width)).set 3
      (.num fs)))).dictGet w "Rect" = Except.ok (.ref rcId) :=
    (dictGet_congr "Rect" hgw).trans hrc
  have hgr : (h.setNode bbId (.arr ((bb0.set 2
      (.num (get_content_box ⟨fs, col, v, dv, nm, some w⟩ sp).width)).set 3
      (.num fs)))).get? rcId = some (.arr rc0) :=
    (get?_setNode_ne h _ hne).trans hrca
  have hr0 : 0 < rc0.length := by omega
  have e4 : (h.setNode bbId (.arr ((bb0.set 2
      (.num (get_content_box ⟨fs, col, v, dv, nm, some w⟩ sp).width)).set 3
      (.num fs)))).arrSet rcId 0
        (.num (get_content_box ⟨fs, col, v, dv, nm, some w⟩ sp).x)
      = Except.ok ((h.setNode bbId (.arr ((bb0.set 2
          (.num (get_content_box ⟨fs, col, v, dv, nm, some w⟩ sp).width)).set 3
          (.num fs)))).setNode rcId (.arr (rc0.set 0
          (.num (get_content_box ⟨fs, col, v, dv, nm, some w⟩ sp).x)))) := by
    simp [Heap.arrSet, hgr, hr0]
  simp only [paint_content_box]
  rw [init_noop_of_some c ⟨fs, col, v, dv, nm, some w⟩ root pageId _ h w rfl]
  simp only [okbind, pureok, asRef_ref, hap, hn, hbb, e1, e2, e3, e4]
  have hgr1 : ∀ (l : List PDFValue),
      ((h.setNode bbId (.arr ((bb0.set 2
        (.num (get_content_box ⟨fs, col, v, dv, nm, some w⟩ sp).width)).set 3
        (.num fs)))).setNode rcId (.arr l)).get? rcId = some (.arr l) := by
    intro l
    exact get?_setNode_self hgr _
  have hr1 : 1 < rc0.length := by omega
  have hr2 : 2 < rc0.length := by omega
  have hr3 : 3 < rc0.length := by omega
  have e5 : ((h.setNode bbId (.arr ((bb0.set 2 (.num (get_content_box ⟨fs, col, v, dv, nm, some w⟩ sp).width)).set 3 (.num fs)))).setNode rcId (.arr (rc0.set 0 (.num (get_content_box ⟨fs, col, v, dv, nm, some w⟩ sp).x)))).arrSet rcId 1
        (.num (get_content_box ⟨fs, col, v, dv, nm, some w⟩ sp).y)
      = Except.ok ((h.setNode bbId (.arr ((bb0.set 2 (.num (get_content_box ⟨fs, col, v, dv, nm, some w⟩ sp).width)).set 3 (.num fs)))).setNode rcId (.arr ((rc0.set 0 (.num (get_content_box ⟨fs, col, v, dv, nm, some w⟩ sp).x)).set 1
          (.num (get_content_box ⟨fs, col, v, dv, nm, some w⟩ sp).y)))) := by
    simp [Heap.arrSet, hgr1, hr1, setNode_setNode]
  have e6 : ((h.setNode bbId (.arr ((bb0.set 2 (.num (get_content_box ⟨fs, col, v, dv, nm, some w⟩ sp).width)).set 3 (.num fs)))).setNode rcId (.arr ((rc0.set 0 (.num (get_content_box ⟨fs, col, v, dv, nm, some w⟩ sp).x)).set 1
        (.num (get_content_box ⟨fs, col, v, dv, nm, some w⟩ sp).y)))).arrSet rcId 2 (.num ((get_content_box ⟨fs, col, v, dv, nm, some w⟩ sp).x + (get_content_box ⟨fs, col, v, dv, nm, some w⟩ sp).width))
      = Except.ok ((h.setNode bbId (.arr ((bb0.set 2 (.num (get_content_box ⟨fs, col, v, dv, nm, some w⟩ sp).width)).set 3 (.num fs)))).setNode rcId (.arr (((rc0.set 0 (.num (get_content_box ⟨fs, col, v, dv, nm, some w⟩ sp).x)).set 1
          (.num (get_content_box ⟨fs, col, v, dv, nm, some w⟩ sp).y)).set 2 (.num ((get_content_box ⟨fs, col, v, dv, nm, some w⟩ sp).x + (get_content_box ⟨fs, col, v, dv, nm, some w⟩ sp).width))))) := by
    simp [Heap.arrSet, hgr1, hr2, setNode_setNode]
  have e7 : ((h.setNode bbId (.arr ((bb0.set 2 (.num (get_content_box ⟨fs, col, v, dv, nm, some w⟩ sp).width)).set 3 (.num fs)))).setNode rcId (.arr (((rc0.set 0 (.num (get_content_box ⟨fs, col, v, dv, nm, some w⟩ sp).x)).set 1
        (.num (get_content_box ⟨fs, col, v, dv, nm, some w⟩ sp).y)).set 2 (.num ((get_content_box ⟨fs, col, v, dv, nm, some w⟩ sp).x + (get_content_box ⟨fs, col, v, dv, nm, some w⟩ sp).width))))).arrSet rcId 3
        (.num ((get_content_box ⟨fs, col, v, dv, nm, some w⟩ sp).y + (get_content_box ⟨fs, col, v, dv, nm, some w⟩ sp).height))
      = Except.ok ((h.setNode bbId (.arr ((bb0.set 2 (.num (get_content_box ⟨fs, col, v, dv, nm, some w⟩ sp).width)).set 3 (.num fs)))).setNode rcId (.arr ((((rc0.set 0 (.num (get_content_box ⟨fs, col, v, dv, nm, some w⟩ sp).x)).set 1
          (.num (get_content_box ⟨fs, col, v, dv, nm, some w⟩ sp).y)).set 2 (.num ((get_content_box ⟨fs, col, v, dv, nm, some w⟩ sp).x + (get_content_box ⟨fs, col, v, dv, nm, some w⟩ sp).width))).set 3
          (.num ((get_content_box ⟨fs, col, v, dv, nm, some w⟩ sp).y + (get_content_box ⟨fs, col, v, dv, nm, some w⟩ sp).height))))) := by
    simp [Heap.arrSet, hgr1, hr3, setNode_setNode]
  simp only [e5, e6, e7, okbind, pureok]


/-- C8: for every field whose widget dictionary already exists, a paint
pass overwrites in place only the appearance stream's BBox entries at
indices 2 and 3 (index 3 set to the raw font size) and the annotation
Rect's four coordinates derived from the new content box; it allocates no
new nodes, leaves every other node of the graph untouched, and leaves the
widget's value (V), default value (DV), field name (T) and resources (DR)
entries identical; when the widget dictionary does not yet exist (the
detached-page situation of §4.6), the pass is a complete no-op. -/
theorem paint_geometry_update_in_place :
    (∀ (c : Codec) (fs : ℚ) (col : RGBColor) (v dv : String) (nm : Option String)
       (root pageId w : Nat) (sp : Rectangle) (h : Heap)
       (apId naId bbId rcId : Nat) (bb0 rc0 : List PDFValue),
       h.dictGet w "AP" = Except.ok (.ref apId) →
       h.dictGet apId "N" = Except.ok (.ref naId) →
       h.dictGet naId "BBox" = Except.ok (.ref bbId) →
       h.dictGet w "Rect" = Except.ok (.ref rcId) →
       h.get? bbId = some (.arr bb0) → 4 ≤ bb0.length →
       h.get? rcId = some (.arr rc0) → 4 ≤ rc0.length →
       bbId ≠ rcId → w ≠ bbId → w ≠ rcId →
       paint_content_box c ⟨fs, col, v, dv, nm, some w⟩ root pageId sp h
         = Except.ok (⟨fs, col, v, dv, nm, some w⟩,
             paint_result h bbId rcId bb0 rc0
               (get_content_box ⟨fs, col, v, dv, nm, some w⟩ sp) fs)
       ∧ (paint_result h bbId rcId bb0 rc0
            (get_content_box ⟨fs, col, v, dv, nm, some w⟩ sp) fs).nodes.length
           = h.nodes.length
       ∧ (∀ i, i ≠ bbId → i ≠ rcId →
           (paint_result h bbId rcId bb0 rc0
             (get_content_box ⟨fs, col, v, dv, nm, some w⟩ sp) fs).get? i = h.get? i)
       ∧ (paint_result h bbId rcId bb0 rc0
            (get_content_box ⟨fs, col, v, dv, nm, some w⟩ sp) fs).get? bbId
           = some (.arr ((bb0.set 2
               (.num (get_content_box ⟨fs, col, v, dv, nm, some w⟩ sp).width)).set 3
               (.num fs)))
       ∧ (paint_result h bbId rcId bb0 rc0
            (get_content_box ⟨fs, col, v, dv, nm, some w⟩ sp) fs).get? rcId
           = some (.arr ((((rc0.set 0
               (.num (get_content_box ⟨fs, col, v, dv, nm, some w⟩ sp).x)).set 1
               (.num (get_content_box ⟨fs, col, v, dv, nm, some w⟩ sp).y)).set 2
               (.num ((get_content_box ⟨fs, col, v, dv, nm, some w⟩ sp).x
                 + (get_content_box ⟨fs, col, v, dv, nm, some w⟩ sp).width))).set 3
               (.num ((get_content_box ⟨fs, col, v, dv, nm, some w⟩ sp).y
                 + (get_content_box ⟨fs, col, v, dv, nm, some w⟩ sp).height))))
       ∧ (paint_result h bbId rcId bb0 rc0
            (get_content_box ⟨fs, col, v, dv, nm, some w⟩ sp) fs).dictGet w "V"
           = h.dictGet w "V"
       ∧ (paint_result h bbId rcId bb0 rc0
            (get_content_box ⟨fs, col, v, dv, nm, some w⟩ sp) fs).dictGet w "DV"
           = h.dictGet w "DV"
       ∧ (paint_result h bbId rcId bb0 rc0
            (get_content_box ⟨fs, col, v, dv, nm, some w⟩ sp) fs).dictGet w "T"
           = h.dictGet w "T"
       ∧ (paint_result h bbId rcId bb0 rc0
            (get_content_box ⟨fs, col, v, dv, nm, some w⟩ sp) fs).dictGet w "DR"
           = h.dictGet w "DR")
    ∧ ∀ (c : Codec) (fld : TextField) (root pageId : Nat) (sp : Rectangle) (h : Heap),
        fld.widget_dictionary = none → h.hasKey root "XRef" = false →
        paint_content_box c fld root pageId sp h = Except.ok (fld, h) := by
  constructor
  · intro c fs col v dv nm root pageId w sp h apId naId bbId rcId bb0 rc0
      hap hn hbb hrc hbba hbbl hrca hrcl hne hwbb hwrc
    refine ⟨paint_frame c fs col v dv nm root pageId w sp h apId naId bbId rcId
        bb0 rc0 hap hn hbb hrc hbba hbbl hrca hrcl hne hwbb hwrc, ?_, ?_, ?_, ?_, ?_, ?_, ?_, ?_⟩
    · unfold paint_result
      rw [length_setNode, length_setNode]
    · intro i hib hir
      unfold paint_result
      rw [get?_setNode_ne _ _ (Ne.symm hir), get?_setNode_ne _ _ (Ne.symm hib)]
    · unfold paint_result
      rw [get?_setNode_ne _ _ (Ne.symm hne)]
      exact get?_setNode_self hbba _
    · unfold paint_result
      exact get?_setNode_self ((get?_setNode_ne h _ hne).trans hrca) _
    all_goals
      refine dictGet_congr _ ?_
      unfold paint_result
      rw [get?_setNode_ne _ _ (Ne.symm hwrc), get?_setNode_ne _ _ (Ne.symm hwbb)]
  · intro c fld root pageId sp h hwd hx
    simp only [paint_content_box]
    rw [init_detached_noop c fld root pageId _ h hwd hx]
    simp only [okbind, hwd, pureok]


/-- Witness for C8: the in-place geometry update applied to the concrete
post-attachment document, with a new available-space rectangle. -/
theorem paint_geometry_update_in_place_witness :
    paint_content_box idCodec ⟨12, ⟨0, 0, 0⟩, "", "", none, some 12⟩ 0 4
        ⟨0, 0, 100, 30⟩ (heapA_attached idCodec 12 ⟨0, 0, 0⟩ "" "" none ⟨0, 0, 200, 50⟩)
      = Except.ok (⟨12, ⟨0, 0, 0⟩, "", "", none, some 12⟩,
          paint_result (heapA_attached idCodec 12 ⟨0, 0, 0⟩ "" "" none ⟨0, 0, 200, 50⟩)
            10 13
            [PDFValue.num 0, PDFValue.num 0, PDFValue.num 200, PDFValue.num 12]
            [PDFValue.num 0, PDFValue.num ((0 : ℚ) + 50 - 12),
              PDFValue.num ((0 : ℚ) + 200), PDFValue.num ((0 : ℚ) + 50)]
            (get_content_box ⟨12, ⟨0, 0, 0⟩, "", "", none, some 12⟩ ⟨0, 0, 100, 30⟩) 12)
    ∧ (paint_result (heapA_attached idCodec 12 ⟨0, 0, 0⟩ "" "" none ⟨0, 0, 200, 50⟩)
          10 13
          [PDFValue.num 0, PDFValue.num 0, PDFValue.num 200, PDFValue.num 12]
          [PDFValue.num 0, PDFValue.num ((0 : ℚ) + 50 - 12),
            PDFValue.num ((0 : ℚ) + 200), PDFValue.num ((0 : ℚ) + 50)]
          (get_content_box ⟨12, ⟨0, 0, 0⟩, "", "", none, some 12⟩ ⟨0, 0, 100, 30⟩) 12).nodes.length
        = (heapA_attached idCodec 12 ⟨0, 0, 0⟩ "" "" none ⟨0, 0, 200, 50⟩).nodes.length
    ∧ (paint_result (heapA_attached idCodec 12 ⟨0, 0, 0⟩ "" "" none ⟨0, 0, 200, 50⟩)
          10 13
          [PDFValue.num 0, PDFValue.num 0, PDFValue.num 200, PDFValue.num 12]
          [PDFValue.num 0, PDFValue.num ((0 : ℚ) + 50 - 12),
            PDFValue.num ((0 : ℚ) + 200), PDFValue.num ((0 : ℚ) + 50)]
          (get_content_box ⟨12, ⟨0, 0, 0⟩, "", "", none, some 12⟩ ⟨0, 0, 100, 30⟩) 12).dictGet 12 "V"
        = (heapA_attached idCodec 12 ⟨0, 0, 0⟩ "" "" none ⟨0, 0, 200, 50⟩).dictGet 12 "V" := by
  have H := paint_geometry_update_in_place.1 idCodec 12 ⟨0, 0, 0⟩ "" "" none 0 4 12
    ⟨0, 0, 100, 30⟩ (heapA_attached idCodec 12 ⟨0, 0, 0⟩ "" "" none ⟨0, 0, 200, 50⟩)
    11 9 10 13
    [PDFValue.num 0, PDFValue.num 0, PDFValue.num 200, PDFValue.num 12]
    [PDFValue.num 0, PDFValue.num ((0 : ℚ) + 50 - 12),
      PDFValue.num ((0 : ℚ) + 200), PDFValue.num ((0 : ℚ) + 50)]
    rfl rfl rfl rfl rfl (by decide) rfl (by decide) (by decide) (by decide) (by decide)
  exact ⟨H.1, H.2.1, H.2.2.2.2.2.1⟩

/-- C10 (implicit): once a field's widget dictionary exists, painting that
same field instance with any root and any page id — including a page other
than the one it was first attached to — never allocates a node, never
grows any array in the document (so nothing is appended to any page's
annotation array nor to the field registry), and never changes the
widget's `P` entry; only the BBox and Rect arrays are rewritten in place,
so the widget belongs to at most one page's annotation list over its
lifetime. -/
theorem painted_widget_belongs_to_at_most_one_page :
    ∀ (c : Codec) (fs : ℚ) (col : RGBColor) (v dv : String) (nm : Option String)
      (root pageId w : Nat) (sp : Rectangle) (h : Heap)
      (apId naId bbId rcId : Nat) (bb0 rc0 : List PDFValue),
      h.dictGet w "AP" = Except.ok (.ref apId) →
      h.dictGet apId "N" = Except.ok (.ref naId) →
      h.dictGet naId "BBox" = Except.ok (.ref bbId) →
      h.dictGet w "Rect" = Except.ok (.ref rcId) →
      h.get? bbId = some (.arr bb0) → 4 ≤ bb0.length →
      h.get? rcId = some (.arr rc0) → 4 ≤ rc0.length →
      bbId ≠ rcId → w ≠ bbId → w ≠ rcId →
      paint_content_box c ⟨fs, col, v, dv, nm, some w⟩ root pageId sp h
        = Except.ok (⟨fs, col, v, dv, nm, some w⟩,
            paint_result h bbId rcId bb0 rc0
              (get_content_box ⟨fs, col, v, dv, nm, some w⟩ sp) fs)
      ∧ (paint_result h bbId rcId bb0 rc0
           (get_content_box ⟨fs, col, v, dv, nm, some w⟩ sp) fs).nodes.length
          = h.nodes.length
      ∧ (paint_result h bbId rcId bb0 rc0
           (get_content_box ⟨fs, col, v, dv, nm, some w⟩ sp) fs).dictGet w "P"
          = h.dictGet w "P"
      ∧ ∀ i l, h.get? i = some (.arr l) →
          ∃ l2, (paint_result h bbId rcId bb0 rc0
              (get_content_box ⟨fs, col, v, dv, nm, some w⟩ sp) fs).get? i
            = some (.arr l2) ∧ l2.length = l.length := by
  intro c fs col v dv nm root pageId w sp h apId naId bbId rcId bb0 rc0
    hap hn hbb hrc hbba hbbl hrca hrcl hne hwbb hwrc
  refine ⟨paint_frame c fs col v dv nm root pageId w sp h apId naId bbId rcId
      bb0 rc0 hap hn hbb hrc hbba hbbl hrca hrcl hne hwbb hwrc, ?_, ?_, ?_⟩
  · unfold paint_result
    rw [length_setNode, length_setNode]
  · refine dictGet_congr _ ?_
    unfold paint_result
    rw [get?_setNode_ne _ _ (Ne.symm hwrc), get?_setNode_ne _ _ (Ne.symm hwbb)]
  · intro i l hg
    by_cases hib : i = bbId
    · subst hib
      rw [hbba] at hg
      injection hg with hg1
      injection hg1 with hg2
      subst hg2
      refine ⟨(bb0.set 2 (.num (get_content_box ⟨fs, col, v, dv, nm, some w⟩ sp).width)).set 3 (.num fs), ?_, ?_⟩
      · unfold paint_result
        rw [get?_setNode_ne _ _ (Ne.symm hne)]
        exact get?_setNode_self hbba _
      · rw [List.length_set, List.length_set]
    · by_cases hir : i = rcId
      · subst hir
        rw [hrca] at hg
        injection hg with hg1
        injection hg1 with hg2
        subst hg2
        refine ⟨(((rc0.set 0 (.num (get_content_box ⟨fs, col, v, dv, nm, some w⟩ sp).x)).set 1 (.num (get_content_box ⟨fs, col, v, dv, nm, some w⟩ sp).y)).set 2
            (.num ((get_content_box ⟨fs, col, v, dv, nm, some w⟩ sp).x + (get_content_box ⟨fs, col, v, dv, nm, some w⟩ sp).width))).set 3 (.num ((get_content_box ⟨fs, col, v, dv, nm, some w⟩ sp).y + (get_content_box ⟨fs, col, v, dv, nm, some w⟩ sp).height)), ?_, ?_⟩
        · unfold paint_result
          exact get?_setNode_self ((get?_setNode_ne h _ hne).trans hrca) _
        · rw [List.length_set, List.length_set, List.length_set, List.length_set]
      · refine ⟨l, ?_, rfl⟩
        unfold paint_result
        rw [get?_setNode_ne _ _ (Ne.symm hir), get?_setNode_ne _ _ (Ne.symm hib)]
        exact hg

/-- Witness for C10: the already-attached field painted with a different
root and page id (nodes that are not even part of the document): the
state change is exactly the two in-place geometry writes. -/
theorem painted_widget_belongs_to_at_most_one_page_witness :
    paint_content_box idCodec ⟨12, ⟨0, 0, 0⟩, "", "", none, some 12⟩ 5 6
        ⟨1, 2, 300, 40⟩ (heapA_attached idCodec 12 ⟨0, 0, 0⟩ "" "" none ⟨0, 0, 200, 50⟩)
      = Except.ok (⟨12, ⟨0, 0, 0⟩, "", "", none, some 12⟩,
          paint_result (heapA_attached idCodec 12 ⟨0, 0, 0⟩ "" "" none ⟨0, 0, 200, 50⟩)
            10 13
            [PDFValue.num 0, PDFValue.num 0, PDFValue.num 200, PDFValue.num 12]
            [PDFValue.num 0, PDFValue.num ((0 : ℚ) + 50 - 12),
              PDFValue.num ((0 : ℚ) + 200), PDFValue.num ((0 : ℚ) + 50)]
            (get_content_box ⟨12, ⟨0, 0, 0⟩, "", "", none, some 12⟩ ⟨1, 2, 300, 40⟩) 12)
    ∧ (paint_result (heapA_attached idCodec 12 ⟨0, 0, 0⟩ "" "" none ⟨0, 0, 200, 50⟩)
          10 13
          [PDFValue.num 0, PDFValue.num 0, PDFValue.num 200, PDFValue.num 12]
          [PDFValue.num 0, PDFValue.num ((0 : ℚ) + 50 - 12),
            PDFValue.num ((0 : ℚ) + 200), PDFValue.num ((0 : ℚ) + 50)]
          (get_content_box ⟨12, ⟨0, 0, 0⟩, "", "", none, some 12⟩ ⟨1, 2, 300, 40⟩) 12).nodes.length
        = (heapA_attached idCodec 12 ⟨0, 0, 0⟩ "" "" none ⟨0, 0, 200, 50⟩).nodes.length
    ∧ (paint_result (heapA_attached idCodec 12 ⟨0, 0, 0⟩ "" "" none ⟨0, 0, 200, 50⟩)
          10 13
          [PDFValue.num 0, PDFValue.num 0, PDFValue.num 200, PDFValue.num 12]
          [PDFValue.num 0, PDFValue.num ((0 : ℚ) + 50 - 12),
            PDFValue.num ((0 : ℚ) + 200), PDFValue.num ((0 : ℚ) + 50)]
          (get_content_box ⟨12, ⟨0, 0, 0⟩, "", "", none, some 12⟩ ⟨1, 2, 300, 40⟩) 12).dictGet 12 "P"
        = (heapA_attached idCodec 12 ⟨0, 0, 0⟩ "" "" none ⟨0, 0, 200, 50⟩).dictGet 12 "P" := by
  have H := painted_widget_belongs_to_at_most_one_page idCodec 12 ⟨0, 0, 0⟩ "" "" none
    5 6 12 ⟨1, 2, 300, 40⟩ (heapA_attached idCodec 12 ⟨0, 0, 0⟩ "" "" none ⟨0, 0, 200, 50⟩)
    11 9 10 13
    [PDFValue.num 0, PDFValue.num 0, PDFValue.num 200, PDFValue.num 12]
    [PDFValue.num 0, PDFValue.num ((0 : ℚ) + 50 - 12),
      PDFValue.num ((0 : ℚ) + 200), PDFValue.num ((0 : ℚ) + 50)]
    rfl rfl rfl rfl rfl (by decide) rfl (by decide) (by decide) (by decide) (by decide)
  exact ⟨H.1, H.2.1, H.2.2.1⟩

end Borb
